import Mathlib

/-!
Verification of the local-filesystem secrets backend
(airflow-core/src/airflow/secrets/local_filesystem.py).

The Python module is shallowly embedded: Python dicts become association
lists in insertion order, exceptions become an explicit error type carried
in Except, the filesystem becomes a function from path to optional content,
and the external collaborators (the JSON and YAML decoders, the JSON
serializer and the Connection constructor parameter introspection) become
an explicit record of functions that every definition is parametric over.
-/

/-- A Python value as it occurs in parsed secret files: strings, integers,
booleans, None, lists, and string-keyed dicts.  Dicts are association lists
in insertion order, as Python dicts preserve insertion order.  Floats and
dicts with non-string keys are outside the model; no claim exercises them. -/
inductive PyValue where
  | str (s : String)
  | int (n : Int)
  | bool (b : Bool)
  | null
  | list (xs : List PyValue)
  | dict (entries : List (String × PyValue))
deriving Repr

/-- A Python dict with string keys, in insertion order. -/
abbrev PyDict := List (String × PyValue)

/-- Python d[k] as an Option: the binding of the first matching key. -/
def pydictGet {α : Type} (d : List (String × α)) (k : String) : Option α :=
  match d with
  | [] => Option.none
  | p :: rest => if p.1 = k then Option.some p.2 else pydictGet rest k

/-- Python d[k] = v: replace the binding in place when the key exists,
append it at the end otherwise (insertion-order semantics of dict). -/
def pydictSet {α : Type} (d : List (String × α)) (k : String) (v : α) :
    List (String × α) :=
  match d with
  | [] => [(k, v)]
  | p :: rest => if p.1 = k then (k, v) :: rest else p :: pydictSet rest k v

/-- Python del d[k]: remove the binding of the key. -/
def pydictDel {α : Type} (d : List (String × α)) (k : String) :
    List (String × α) :=
  match d with
  | [] => []
  | p :: rest => if p.1 = k then rest else p :: pydictDel rest k

/-- Python list(d.keys()). -/
def dictKeys {α : Type} (d : List (String × α)) : List String :=
  d.map Prod.fst

/-- The FileSyntaxError record of airflow.exceptions: a 1-based line number
(or -1 when unknown) together with a message. -/
structure FileSyntaxError where
  line_no : Int
  message : String
deriving Repr, DecidableEq

/-- The distinct failure conditions raised by the module.  Each constructor
corresponds to exactly one raise site in the source and carries the data
interpolated into the message of that site.  In the source all constructors but
parseFailure (AirflowFileParseException) and connectionNotUnique
(ConnectionNotUnique) are AirflowException values distinguished by message. -/
inductive Err where
  | notFound (file_path : String)
  | unsupportedFormat
  | parseFailure (file_path : String) (parse_errors : List FileSyntaxError)
  | illegalKeys (illegal_keys : List String) (allowed : List String)
  | mutuallyExclusiveExtra
  | connIdMismatch (dict_value : PyValue) (item_value : String)
  | unexpectedValueType (type_name : String)
  | multipleValuesForKeys (file_path : String) (keys : List String)
  | connectionNotUnique (key : String) (file_path : String)
deriving Repr

/-- The external Connection constructor, recorded transparently: either
Connection(conn_id=conn_id, uri=value) or Connection(**kwargs). -/
inductive Connection where
  | fromUri (conn_id : String) (uri : String)
  | fromKwargs (kwargs : PyDict)
deriving Repr

/-- The data of a json.JSONDecodeError used by the module: the 1-based line
number reported by the decoder and its message. -/
structure JSONDecodeError where
  lineno : Int
  msg : String
deriving Repr, DecidableEq

/-- The data of a yaml.MarkedYAMLError used by the module: the line of the
problem mark when one is available, and the rendering str(e). -/
structure MarkedYAMLError where
  problem_mark_line : Option Int
  msg : String
deriving Repr, DecidableEq

/-- Modelled from the spec: the external collaborators of the module, which
are not part of the source fragment.  jsonLoads and yamlSafeLoad are the
standard decoders (json.loads, yaml.safe_load) restricted to the exceptions
the module catches; jsonDumps is json.dumps; connection_parameter_names is
the result of get_connection_parameter_names, the introspected parameter
name list of the external Connection constructor. -/
structure Deps where
  jsonLoads : String → Except JSONDecodeError PyValue
  yamlSafeLoad : String → Except MarkedYAMLError PyValue
  jsonDumps : PyValue → String
  connection_parameter_names : List String

/-- The filesystem: a map from path to content.  A path exists precisely
when it is mapped to some content. -/
abbrev FileSystem := String → Option String

/-- Splits a character list at the first occurrence of the separator,
returning the parts before and after it, or none when it does not occur. -/
def splitAtFirst (sep : Char) : List Char → Option (List Char × List Char)
  | [] => Option.none
  | c :: cs =>
    if c = sep then Option.some ([], cs)
    else (splitAtFirst sep cs).map (fun p => (c :: p.1, p.2))

/-- Helper for pyRsplit: splits from the front at most the given number of
times (used on the reversed character list). -/
def pySplitMaxAux (sep : Char) : Nat → List Char → List (List Char)
  | 0, cs => [cs]
  | n + 1, cs =>
    match splitAtFirst sep cs with
    | Option.none => [cs]
    | Option.some (pre, post) => pre :: pySplitMaxAux sep n post

/-- Python s.rsplit(sep, maxsplit): split from the right at most maxsplit
times.  The result is never empty. -/
def pyRsplit (s : String) (sep : Char) (maxsplit : Nat) : List String :=
  ((pySplitMaxAux sep maxsplit s.data.reverse).map
    (fun l => (l.reverse).asString)).reverse

/-- Python str.splitlines restricted to the line boundaries LF, CRLF and CR
(the only ones the repository uses); no trailing empty line is produced. -/
def pySplitlinesAux : List Char → List Char → List String
  | [], acc => if acc.isEmpty then [] else [acc.reverse.asString]
  | '\n' :: rest, acc => acc.reverse.asString :: pySplitlinesAux rest []
  | '\r' :: '\n' :: rest, acc => acc.reverse.asString :: pySplitlinesAux rest []
  | '\r' :: rest, acc => acc.reverse.asString :: pySplitlinesAux rest []
  | c :: rest, acc => pySplitlinesAux rest (c :: acc)

/-- Python content.splitlines(). -/
def pySplitlines (content : String) : List String :=
  pySplitlinesAux content.data []

/-- Python enumerate(lines, n): pair each line with its number, counting
from n. -/
def enumerateFrom (n : Nat) : List String → List (Nat × String)
  | [] => []
  | l :: ls => (n, l) :: enumerateFrom (n + 1) ls

/-- Python line.partition(sep): the part before the first separator, whether
the separator occurs, and the part after it.  When the separator does not
occur the whole string is the first component and the rest is empty. -/
def pyPartition (sep : Char) (s : String) : String × Bool × String :=
  match splitAtFirst sep s.data with
  | Option.none => (s, false, "")
  | Option.some (pre, post) => (pre.asString, true, post.asString)

/-- Modelled from the spec: COMMENT_PATTERN lives in airflow.utils.file,
which is not part of the source fragment; the spec describes dotenv comments
as hash-prefixed lines, so a comment line is one whose first character is
the hash sign. -/
def isCommentLine (line : String) : Bool :=
  match line.data with
  | '#' :: _ => true
  | _ => false

/-- The message of the dotenv parser for a line without an equal sign. -/
def missingEqualSignMessage : String :=
  "Invalid line format. The line should contain at least one equal sign (\"=\")."

/-- The message of the dotenv parser for a line with an empty value part. -/
def keyEmptyMessage : String := "Invalid line format. Key is empty."

/-- The state threaded through the dotenv parsing loop: the defaultdict of
secrets and the accumulated syntax errors. -/
structure EnvState where
  secrets : List (String × List String)
  errors : List FileSyntaxError
deriving Repr

/-- Python secrets[key].append(value) on a defaultdict(list): append to the
existing list of the key, or bind the key to a fresh singleton list at the
end. -/
def envInsert (m : List (String × List String)) (k v : String) :
    List (String × List String) :=
  match m with
  | [] => [(k, [v])]
  | p :: rest =>
    if p.1 = k then (p.1, p.2 ++ [v]) :: rest else p :: envInsert rest k v

/-- One iteration of the dotenv parsing loop of _parse_env_file, for one
numbered line: empty lines and comment lines are skipped, a line without an
equal sign adds one error and is skipped, a line with an empty value part
adds one error and still records the key with the empty value, and any other
line records the key and value. -/
def envStep (st : EnvState) (numbered_line : Nat × String) : EnvState :=
  let line_no := numbered_line.1
  let line := numbered_line.2
  if line = "" then st
  else if isCommentLine line then st
  else
    let parts := pyPartition '=' line
    if parts.2.1 = false then
      { st with errors := st.errors ++ [⟨(line_no : Int), missingEqualSignMessage⟩] }
    else if parts.2.2 = "" then
      { secrets := envInsert st.secrets parts.1 parts.2.2,
        errors := st.errors ++ [⟨(line_no : Int), keyEmptyMessage⟩] }
    else
      { st with secrets := envInsert st.secrets parts.1 parts.2.2 }

/-- _parse_env_file, over the file content: fold the line loop over the
1-based enumeration of the lines. -/
def _parse_env_file (content : String) :
    List (String × List String) × List FileSyntaxError :=
  let final := (enumerateFrom 1 (pySplitlines content)).foldl envStep ⟨[], []⟩
  (final.secrets, final.errors)

/-- _parse_json_file, over the file content and the external decoder. -/
def _parse_json_file (D : Deps) (content : String) :
    PyDict × List FileSyntaxError :=
  if content = "" then ([], [⟨1, "The file is empty."⟩])
  else
    match D.jsonLoads content with
    | .error e => ([], [⟨e.lineno, e.msg⟩])
    | .ok secrets =>
      match secrets with
      | .dict entries => (entries, [])
      | _ => ([], [⟨1, "The file should contain the object."⟩])

/-- _parse_yaml_file, over the file content and the external decoder.  The
reported line is the problem mark of the error when available and -1
otherwise. -/
def _parse_yaml_file (D : Deps) (content : String) :
    PyDict × List FileSyntaxError :=
  if content = "" then ([], [⟨1, "The file is empty."⟩])
  else
    match D.yamlSafeLoad content with
    | .error e => ([], [⟨(e.problem_mark_line).getD (-1), e.msg⟩])
    | .ok secrets =>
      match secrets with
      | .dict entries => (entries, [])
      | _ => ([], [⟨1, "The file should contain the object."⟩])

/-- Embeds the dotenv result dict[str, list[str]] into the uniform
dict[str, Any] that flows out of the dispatcher. -/
def envAsPyDict (m : List (String × List String)) : PyDict :=
  m.map (fun p => (p.1, PyValue.list (p.2.map PyValue.str)))

/-- The FILE_PARSERS dict: extension to parsing function. -/
def FILE_PARSERS (D : Deps) :
    List (String × (String → PyDict × List FileSyntaxError)) :=
  [("env", fun content =>
      let r := _parse_env_file content
      (envAsPyDict r.1, r.2)),
   ("json", _parse_json_file D),
   ("yaml", _parse_yaml_file D),
   ("yml", _parse_yaml_file D)]

/-- Python str.lower(), character by character (ASCII suffices for the
extension check). -/
def pyLower (s : String) : String :=
  (s.data.map Char.toLower).asString

/-- Python file_path.rsplit(".", 2)[-1].lower(): the lowercased extension
used by the dispatcher. -/
def fileExt (file_path : String) : String :=
  pyLower ((pyRsplit file_path '.' 2).getLastD file_path)

/-- _parse_secret_file: fail when the path does not exist, fail when the
extension has no parser, invoke the parser, fail with the file path and the
full ordered error list when the parser reported errors, and return the raw
secret map otherwise. -/
def _parse_secret_file (D : Deps) (fs : FileSystem) (file_path : String) :
    Except Err PyDict :=
  match fs file_path with
  | Option.none => .error (.notFound file_path)
  | Option.some content =>
    match (FILE_PARSERS D).find? (fun p => p.1 == fileExt file_path) with
    | Option.none => .error .unsupportedFormat
    | Option.some p =>
      let r := p.2 content
      if r.2 = [] then .ok r.1 else .error (.parseFailure file_path r.2)

/-- The Python type name of a value, as interpolated into the unexpected
value type message. -/
def pyTypeName : PyValue → String
  | .str _ => "str"
  | .int _ => "int"
  | .bool _ => "bool"
  | .null => "NoneType"
  | .list _ => "list"
  | .dict _ => "dict"

/-- Python conn_id == value, for a str conn_id against an arbitrary value:
true exactly when the value is an equal string (Python string equality with
a non-string is false). -/
def pyEqStr : PyValue → String → Bool
  | .str a, b => a = b
  | _, _ => false

/-- _create_connection: a string value becomes a URI connection; a dict
value is validated (illegal keys, extra and extra_dejson exclusion),
normalized (extra_dejson serialized under extra and removed, conn_id checked
against the supplied one and then overridden) and becomes a kwargs
connection; any other value fails naming its type. -/
def _create_connection (D : Deps) (conn_id : String) (value : PyValue) :
    Except Err Connection :=
  match value with
  | .str s => .ok (.fromUri conn_id s)
  | .dict d0 =>
    let connection_parameter_names :=
      D.connection_parameter_names ++ ["extra_dejson"]
    let current_keys := dictKeys d0
    if ¬ (current_keys.all (fun k => connection_parameter_names.contains k)) then
      .error (.illegalKeys
        (current_keys.filter (fun k => ¬ connection_parameter_names.contains k))
        connection_parameter_names)
    else if (pydictGet d0 "extra").isSome ∧ (pydictGet d0 "extra_dejson").isSome then
      .error .mutuallyExclusiveExtra
    else
      let d1 :=
        match pydictGet d0 "extra_dejson" with
        | Option.some ed =>
          pydictDel (pydictSet d0 "extra" (.str (D.jsonDumps ed))) "extra_dejson"
        | Option.none => d0
      if current_keys.contains "conn_id" ∧
          ¬ pyEqStr ((pydictGet d1 "conn_id").getD .null) conn_id then
        .error (.connIdMismatch ((pydictGet d1 "conn_id").getD .null) conn_id)
      else
        .ok (.fromKwargs (pydictSet d1 "conn_id" (.str conn_id)))
  | v => .error (.unexpectedValueType (pyTypeName v))

/-- Python isinstance(values, list) and len(values) != 1, the offending-key
test of load_variables. -/
def isListLenNe1 : PyValue → Bool
  | .list vs => vs.length ≠ 1
  | _ => false

/-- Python values[0] if isinstance(values, list) else values.  The default
for an empty list is unreachable in load_variables because offending keys
were rejected before. -/
def unwrapValue : PyValue → PyValue
  | .list vs => vs.headD .null
  | v => v

/-- load_variables: dispatch the file, reject (naming the file and all
offending keys) when any value is a list whose length is not one, and
otherwise unwrap singleton lists and pass the other values through. -/
def load_variables (D : Deps) (fs : FileSystem) (file_path : String) :
    Except Err PyDict :=
  match _parse_secret_file D fs file_path with
  | .error e => .error e
  | .ok secrets =>
    let invalid_keys := (secrets.filter (fun p => isListLenNe1 p.2)).map Prod.fst
    if invalid_keys = [] then
      .ok (secrets.map (fun p => (p.1, unwrapValue p.2)))
    else .error (.multipleValuesForKeys file_path invalid_keys)

/-- The inner for loop of load_connections_dict: build a connection for each
remaining raw value of the key and store it under the key. -/
def connAssignLoop (D : Deps) (key : String) :
    List PyValue → List (String × Connection) →
    Except Err (List (String × Connection))
  | [], acc => .ok acc
  | sv :: rest, acc =>
    match _create_connection D key sv with
    | .error e => .error e
    | .ok c => connAssignLoop D key rest (pydictSet acc key c)

/-- The outer loop of load_connections_dict over the raw secret map: a list
value of length above one fails at once; a list value otherwise has each of
its elements (zero or one) built and stored; a non-list value is built and
stored directly. -/
def connLoop (D : Deps) (file_path : String) :
    PyDict → List (String × Connection) →
    Except Err (List (String × Connection))
  | [], acc => .ok acc
  | (key, v) :: rest, acc =>
    match v with
    | .list vs =>
      if vs.length > 1 then .error (.connectionNotUnique key file_path)
      else
        match connAssignLoop D key vs acc with
        | .error e => .error e
        | .ok acc2 => connLoop D file_path rest acc2
    | _ =>
      match _create_connection D key v with
      | .error e => .error e
      | .ok c => connLoop D file_path rest (pydictSet acc key c)

/-- load_connections_dict: dispatch the file and run the connection loop
starting from the empty result. -/
def load_connections_dict (D : Deps) (fs : FileSystem) (file_path : String) :
    Except Err (List (String × Connection)) :=
  match _parse_secret_file D fs file_path with
  | .error e => .error e
  | .ok secrets => connLoop D file_path secrets []

/-- LocalFilesystemBackend: the two optional configured file paths. -/
structure LocalFilesystemBackend where
  variables_file : Option String := Option.none
  connections_file : Option String := Option.none

/-- The _local_variables property: an unconfigured (absent or empty) path
gives the empty dict without touching the filesystem; otherwise the
variables are loaded from the configured file. -/
def _local_variables (D : Deps) (fs : FileSystem)
    (b : LocalFilesystemBackend) : Except Err PyDict :=
  match b.variables_file with
  | Option.none => .ok []
  | Option.some p => if p = "" then .ok [] else load_variables D fs p

/-- The _local_connections property: an unconfigured (absent or empty) path
gives the empty dict without touching the filesystem; otherwise the
connections are loaded from the configured file. -/
def _local_connections (D : Deps) (fs : FileSystem)
    (b : LocalFilesystemBackend) : Except Err (List (String × Connection)) :=
  match b.connections_file with
  | Option.none => .ok []
  | Option.some p => if p = "" then .ok [] else load_connections_dict D fs p

/-- get_connection: the membership test evaluates the property once and, on
success, the subscript access evaluates it a second time, as in the source. -/
def get_connection (D : Deps) (fs : FileSystem) (b : LocalFilesystemBackend)
    (conn_id : String) : Except Err (Option Connection) :=
  match _local_connections D fs b with
  | .error e => .error e
  | .ok m =>
    if (pydictGet m conn_id).isSome then
      match _local_connections D fs b with
      | .error e => .error e
      | .ok m2 => .ok (pydictGet m2 conn_id)
    else .ok Option.none

/-- get_variable: dict.get of the resolved variables. -/
def get_variable (D : Deps) (fs : FileSystem) (b : LocalFilesystemBackend)
    (key : String) : Except Err (Option PyValue) :=
  match _local_variables D fs b with
  | .error e => .error e
  | .ok m => .ok (pydictGet m key)

lemma dictKeys_cons {α : Type} (p : String × α) (rest : List (String × α)) :
    dictKeys (p :: rest) = p.1 :: dictKeys rest := rfl

lemma splitAtFirst_eq_none_of_not_mem (sep : Char) (cs : List Char)
    (h : sep ∉ cs) : splitAtFirst sep cs = Option.none := by
  induction cs with
  | nil => rfl
  | cons c cs ih =>
    simp only [List.mem_cons, not_or] at h
    have hc : ¬ c = sep := fun e => h.1 e.symm
    simp [splitAtFirst, hc, ih h.2]

lemma splitAtFirst_append_sep (sep : Char) (cs : List Char) (h : sep ∉ cs) :
    splitAtFirst sep (cs ++ [sep]) = Option.some (cs, []) := by
  induction cs with
  | nil => simp [splitAtFirst]
  | cons c cs ih =>
    simp only [List.mem_cons, not_or] at h
    have hc : ¬ c = sep := fun e => h.1 e.symm
    simp [splitAtFirst, hc, ih h.2]

lemma pyPartition_of_not_mem (sep : Char) (s : String) (h : sep ∉ s.data) :
    pyPartition sep s = (s, false, "") := by
  simp [pyPartition, splitAtFirst_eq_none_of_not_mem sep s.data h]

lemma pyPartition_key_empty_value (k : String) (h : '=' ∉ k.data) :
    pyPartition '=' (k ++ "=") = (k, true, "") := by
  have hd : (k ++ "=").data = k.data ++ ['='] := by
    simp [String.data_append]
  simp [pyPartition, hd, splitAtFirst_append_sep '=' k.data h]
  exact ⟨rfl, rfl⟩

lemma pydictGet_set_self {α : Type} (d : List (String × α)) (k : String)
    (v : α) : pydictGet (pydictSet d k v) k = Option.some v := by
  induction d with
  | nil => simp [pydictSet, pydictGet]
  | cons p rest ih =>
    by_cases hp : p.1 = k
    · simp [pydictSet, hp, pydictGet]
    · simp [pydictSet, hp, pydictGet, ih]

lemma pydictGet_set_ne {α : Type} (d : List (String × α)) (k k2 : String)
    (v : α) (h : k2 ≠ k) :
    pydictGet (pydictSet d k v) k2 = pydictGet d k2 := by
  have hk : ¬ k = k2 := fun e => h e.symm
  induction d with
  | nil => simp [pydictSet, pydictGet, hk]
  | cons p rest ih =>
    by_cases hp : p.1 = k
    · simp [pydictSet, hp, pydictGet, hk]
    · simp [pydictSet, hp, pydictGet, ih]

lemma pydictGet_del_ne {α : Type} (d : List (String × α)) (k k2 : String)
    (h : k2 ≠ k) : pydictGet (pydictDel d k) k2 = pydictGet d k2 := by
  have hk : ¬ k = k2 := fun e => h e.symm
  induction d with
  | nil => simp [pydictDel]
  | cons p rest ih =>
    by_cases hp : p.1 = k
    · have hp2 : ¬ p.1 = k2 := by rw [hp]; exact hk
      simp [pydictDel, hp, pydictGet, hp2, hk]
    · simp [pydictDel, hp, pydictGet, ih]

lemma pydictGet_isSome_iff {α : Type} (d : List (String × α)) (k : String) :
    (pydictGet d k).isSome ↔ k ∈ dictKeys d := by
  induction d with
  | nil => simp [pydictGet, dictKeys]
  | cons p rest ih =>
    by_cases hp : p.1 = k
    · simp [pydictGet, hp, dictKeys_cons, List.mem_cons]
    · have hk : ¬ k = p.1 := fun e => hp e.symm
      simp [pydictGet, hp, dictKeys_cons, List.mem_cons, hk, ih]

lemma pydictGet_envInsert_some (m : List (String × List String))
    (k v : String) (vs : List String) (h : pydictGet m k = Option.some vs) :
    pydictGet (envInsert m k v) k = Option.some (vs ++ [v]) := by
  induction m with
  | nil => simp [pydictGet] at h
  | cons p rest ih =>
    by_cases hp : p.1 = k
    · simp [pydictGet, hp] at h
      simp [envInsert, hp, pydictGet, h]
    · simp [pydictGet, hp] at h
      simp [envInsert, hp, pydictGet, ih h]

lemma pydictGet_envInsert_none (m : List (String × List String))
    (k v : String) (h : pydictGet m k = Option.none) :
    pydictGet (envInsert m k v) k = Option.some [v] := by
  induction m with
  | nil => simp [envInsert, pydictGet]
  | cons p rest ih =>
    by_cases hp : p.1 = k
    · simp [pydictGet, hp] at h
    · simp [pydictGet, hp] at h
      simp [envInsert, hp, pydictGet, ih h]

lemma find_FILE_PARSERS_eq_none (D : Deps) (e : String)
    (h : e ∉ (["env", "json", "yaml", "yml"] : List String)) :
    (FILE_PARSERS D).find? (fun p => p.1 == e) = Option.none := by
  simp only [List.mem_cons, List.not_mem_nil, or_false, not_or] at h
  obtain ⟨h1, h2, h3, h4⟩ := h
  have e1 : ("env" == e) = false := beq_eq_false_iff_ne.mpr (Ne.symm h1)
  have e2 : ("json" == e) = false := beq_eq_false_iff_ne.mpr (Ne.symm h2)
  have e3 : ("yaml" == e) = false := beq_eq_false_iff_ne.mpr (Ne.symm h3)
  have e4 : ("yml" == e) = false := beq_eq_false_iff_ne.mpr (Ne.symm h4)
  simp [FILE_PARSERS, List.find?, e1, e2, e3, e4]

/-- A sample record of external collaborators, used to instantiate the
universally quantified theorems at concrete inputs. -/
def D0 : Deps where
  jsonLoads := fun c =>
    if c = "\x7b\"A\":\"1\"\x7d" then .ok (.dict [("A", .str "1")])
    else if c = "\x7b\"a\": []\x7d" then .ok (.dict [("a", .list [])])
    else .error ⟨1, "Expecting value: line 1 column 1 (char 0)"⟩
  yamlSafeLoad := fun c =>
    if c = "A: 1" then .ok (.dict [("A", .int 1)])
    else .error ⟨Option.none, "could not determine a constructor"⟩
  jsonDumps := fun _ => "null"
  connection_parameter_names :=
    ["conn_id", "conn_type", "description", "host", "login", "password",
     "schema", "port", "extra", "uri"]

/-- A sample filesystem, used to instantiate the universally quantified
theorems at concrete inputs. -/
def fs0 : FileSystem := fun p =>
  if p = "vars.env" then Option.some "A=1\nA=2"
  else if p = "vars.json" then Option.some "\x7b\"A\":\"1\"\x7d"
  else if p = "conns.json" then Option.some "\x7b\"a\": []\x7d"
  else if p = "bad.env" then Option.some "no equal sign"
  else if p = "data.txt" then Option.some "A=1"
  else Option.none

/-- Claim C1: the file dispatcher fails with the not-found condition when
the path does not exist; otherwise, when the lowercased extension is not
among env, json, yaml, yml it fails with the unsupported-format condition;
otherwise, when the selected parser returns a non-empty error list it fails
with the aggregated parse failure carrying the file path and the full
ordered error list; otherwise it returns the raw secret map of the
parser. -/
theorem C1_file_dispatcher (D : Deps) (fs : FileSystem) (file_path : String) :
    (fs file_path = Option.none →
      _parse_secret_file D fs file_path = .error (.notFound file_path)) ∧
    (∀ content, fs file_path = Option.some content →
      (fileExt file_path ∉ (["env", "json", "yaml", "yml"] : List String) →
        _parse_secret_file D fs file_path = .error .unsupportedFormat) ∧
      (∀ pr, (FILE_PARSERS D).find? (fun p => p.1 == fileExt file_path) =
          Option.some pr →
        ((pr.2 content).2 ≠ [] →
          _parse_secret_file D fs file_path =
            .error (.parseFailure file_path (pr.2 content).2)) ∧
        ((pr.2 content).2 = [] →
          _parse_secret_file D fs file_path = .ok (pr.2 content).1))) := by
  refine ⟨fun h => ?_, fun content hc => ⟨fun hext => ?_, fun pr hpr => ⟨fun he => ?_, fun he => ?_⟩⟩⟩
  · simp [_parse_secret_file, h]
  · simp [_parse_secret_file, hc, find_FILE_PARSERS_eq_none D _ hext]
  · simp [_parse_secret_file, hc, hpr, he]
  · simp [_parse_secret_file, hc, hpr, he]

/-- Witness for C1 at concrete inputs: a missing path, an unsupported
extension, a dotenv file with a syntax error, and a well-formed dotenv
file. -/
theorem C1_file_dispatcher_witness :
    _parse_secret_file D0 fs0 "missing.env" = .error (.notFound "missing.env") ∧
    _parse_secret_file D0 fs0 "data.txt" = .error .unsupportedFormat ∧
    _parse_secret_file D0 fs0 "bad.env" =
      .error (.parseFailure "bad.env" [⟨1, missingEqualSignMessage⟩]) ∧
    _parse_secret_file D0 fs0 "vars.env" =
      .ok [("A", PyValue.list [PyValue.str "1", PyValue.str "2"])] := by
  refine ⟨(C1_file_dispatcher D0 fs0 "missing.env").1 rfl, ?_, ?_, ?_⟩
  · exact ((C1_file_dispatcher D0 fs0 "data.txt").2 "A=1" rfl).1 (by decide)
  · exact (((C1_file_dispatcher D0 fs0 "bad.env").2 "no equal sign" rfl).2
      _ rfl).1 (by decide)
  · exact (((C1_file_dispatcher D0 fs0 "vars.env").2 "A=1\nA=2" rfl).2
      _ rfl).2 (by decide)

/-- Claim C5: the dotenv loop skips blank lines and comment lines silently;
a remaining line without an equal sign adds exactly one syntax error at the
1-based number of that line, leaves the secrets untouched, and the fold
continues with the following lines.  The last conjunct checks the loop on a
concrete three-line file: the bad middle line is reported at line 2 and both
surrounding lines are still parsed. -/
theorem C5_dotenv_line_errors :
    (∀ st n, envStep st (n, "") = st) ∧
    (∀ st n line, isCommentLine line = true → envStep st (n, line) = st) ∧
    (∀ st n line, line ≠ "" → isCommentLine line = false → '=' ∉ line.data →
      envStep st (n, line) =
        { st with errors := st.errors ++ [⟨(n : Int), missingEqualSignMessage⟩] }) ∧
    (∀ st p rest,
      List.foldl envStep st (p :: rest) = List.foldl envStep (envStep st p) rest) ∧
    (∀ content,
      _parse_env_file content =
        (((enumerateFrom 1 (pySplitlines content)).foldl envStep ⟨[], []⟩).secrets,
         ((enumerateFrom 1 (pySplitlines content)).foldl envStep ⟨[], []⟩).errors)) ∧
    (_parse_env_file "A=1\nbad\nB=2" =
      ([("A", ["1"]), ("B", ["2"])], [⟨2, missingEqualSignMessage⟩])) := by
  refine ⟨fun st n => rfl, fun st n line h => ?_, fun st n line h1 h2 h3 => ?_,
    fun st p rest => rfl, fun content => rfl, by decide⟩
  · simp [envStep, h]
  · simp [envStep, h1, h2, pyPartition_of_not_mem '=' line h3]

/-- Witness for C5: a comment line is skipped, and a line without an equal
sign at line number 3 is reported exactly once at line 3. -/
theorem C5_dotenv_line_errors_witness :
    envStep ⟨[], []⟩ (1, "# comment") = ⟨[], []⟩ ∧
    envStep ⟨[], []⟩ (3, "bad") = ⟨[], [⟨3, missingEqualSignMessage⟩]⟩ := by
  refine ⟨C5_dotenv_line_errors.2.1 ⟨[], []⟩ 1 "# comment" (by decide), ?_⟩
  exact C5_dotenv_line_errors.2.2.1 ⟨[], []⟩ 3 "bad" (by decide) (by decide)
    (by decide)

/-- Claim C6: a dotenv line formed of a key part without an equal sign
followed by a single equal sign (an empty value part) adds exactly one
syntax error carrying the key-is-empty wording, and still appends the empty
string to the values of the key; the message wording is exactly the one of
the source; repeated keys accumulate their values in encounter order; and a
concrete three-line file with a repeated key collects all three values in
order with exactly one error for the empty value at line 1. -/
theorem C6_dotenv_empty_value (st : EnvState) (n : Nat) (k : String) :
    (isCommentLine (k ++ "=") = false → '=' ∉ k.data →
      envStep st (n, k ++ "=") =
        { secrets := envInsert st.secrets k "",
          errors := st.errors ++ [⟨(n : Int), keyEmptyMessage⟩] }) ∧
    (keyEmptyMessage = "Invalid line format. Key is empty.") ∧
    (∀ m v vs, pydictGet m k = Option.some vs →
      pydictGet (envInsert m k v) k = Option.some (vs ++ [v])) ∧
    (∀ m v, pydictGet m k = Option.none →
      pydictGet (envInsert m k v) k = Option.some [v]) ∧
    (_parse_env_file "K=\nK=a\nK=b" =
      ([("K", ["", "a", "b"])], [⟨1, keyEmptyMessage⟩])) := by
  refine ⟨fun hcomment hmem => ?_, rfl,
    fun m v vs h => pydictGet_envInsert_some m k v vs h,
    fun m v h => pydictGet_envInsert_none m k v h, by decide⟩
  have hne : k ++ "=" ≠ "" := by
    intro he
    have hdata : (k ++ "=").data = [] := by rw [he]
    rw [String.data_append] at hdata
    simp at hdata
  simp [envStep, hne, hcomment, pyPartition_key_empty_value k hmem]

/-- Witness for C6: the empty-value line K= on state ⟨[], []⟩ at line 5
records K with the empty string and reports exactly one error at line 5. -/
theorem C6_dotenv_empty_value_witness :
    envStep ⟨[], []⟩ (5, "K" ++ "=") =
      ⟨[("K", [""])], [⟨5, keyEmptyMessage⟩]⟩ := by
  exact (C6_dotenv_empty_value ⟨[], []⟩ 5 "K").1 (by decide) (by decide)

lemma envInsert_values_ne_nil (m : List (String × List String))
    (k v : String) (h : ∀ p ∈ m, p.2 ≠ []) :
    ∀ p ∈ envInsert m k v, p.2 ≠ [] := by
  induction m with
  | nil =>
    intro p hp
    simp [envInsert] at hp
    simp [hp]
  | cons q rest ih =>
    intro p hp
    by_cases hq : q.1 = k
    · simp [envInsert, hq] at hp
      rcases hp with hp | hp
      · simp [hp]
      · exact h p (List.mem_cons_of_mem q hp)
    · simp only [envInsert, hq, if_false, List.mem_cons] at hp
      rcases hp with hp | hp
      · exact hp ▸ h q (List.mem_cons_self q rest)
      · exact ih (fun r hr => h r (List.mem_cons_of_mem q hr)) p hp

lemma envStep_values_ne_nil (st : EnvState) (p : Nat × String)
    (h : ∀ q ∈ st.secrets, q.2 ≠ []) :
    ∀ q ∈ (envStep st p).secrets, q.2 ≠ [] := by
  simp only [envStep]
  split
  · exact h
  · split
    · exact h
    · split
      · exact h
      · split
        · exact envInsert_values_ne_nil st.secrets _ _ h
        · exact envInsert_values_ne_nil st.secrets _ _ h

lemma envFold_values_ne_nil (lines : List (Nat × String)) (st : EnvState)
    (h : ∀ q ∈ st.secrets, q.2 ≠ []) :
    ∀ q ∈ (List.foldl envStep st lines).secrets, q.2 ≠ [] := by
  induction lines generalizing st with
  | nil => exact h
  | cons p rest ih =>
    exact ih (envStep st p) (envStep_values_ne_nil st p h)

/-- Counterexample to C9: the dotenv content =x parses without any error to
a raw secret map whose only key is the empty string, so it is not the case
that every key produced by the parsers is non-empty. -/
theorem C9_counterexample :
    ¬ (∀ k ∈ (_parse_env_file "=x").1.map Prod.fst, k ≠ "") := by
  intro h
  exact h "" (by decide) rfl

/-- Claim C9 as amended: the keys of a raw secret map are not guaranteed to
be non-empty (a dotenv line with an empty part before the equal sign yields
the empty-string key), but every value produced by the dotenv parser, as a
raw secret map entry of the dispatcher, is wrapped in a non-empty list of
strings even when there is only one value for the key. -/
theorem C9_amended_dotenv_values_wrapped (content : String)
    (entry : String × PyValue)
    (h : entry ∈ envAsPyDict (_parse_env_file content).1) :
    ∃ ss : List String, ss ≠ [] ∧ entry.2 = PyValue.list (ss.map PyValue.str) := by
  rcases List.mem_map.mp h with ⟨p, hp, he⟩
  refine ⟨p.2, ?_, by rw [← he]⟩
  exact envFold_values_ne_nil (enumerateFrom 1 (pySplitlines content))
    ⟨[], []⟩ (by intro q hq; simp at hq) p hp

/-- Witness for the amended C9: in the parse of the single line A=1 the
value of A is the singleton list containing the string 1. -/
theorem C9_amended_dotenv_values_wrapped_witness :
    ∃ ss : List String, ss ≠ [] ∧
      ("A", PyValue.list [PyValue.str "1"]).2 = PyValue.list (ss.map PyValue.str) := by
  exact C9_amended_dotenv_values_wrapped "A=1" ("A", PyValue.list [PyValue.str "1"])
    (List.Mem.head _)

/-- Claim C7: for both single-document parsers, empty content yields the
empty map with exactly one file-is-empty error at line 1; decoded content
whose top-level value is not an object yields the empty map with exactly one
should-contain-the-object error at line 1; a decoder failure yields the
empty map with exactly one error at the line the decoder reported (or -1
for YAML when no problem mark is available) carrying the decoder message;
and a decoded object is returned verbatim with an empty error list. -/
theorem C7_json_yaml_parsers (D : Deps) (content : String) :
    (content = "" →
      _parse_json_file D content = ([], [⟨1, "The file is empty."⟩]) ∧
      _parse_yaml_file D content = ([], [⟨1, "The file is empty."⟩])) ∧
    (∀ e, content ≠ "" → D.jsonLoads content = .error e →
      _parse_json_file D content = ([], [⟨e.lineno, e.msg⟩])) ∧
    (∀ e, content ≠ "" → D.yamlSafeLoad content = .error e →
      _parse_yaml_file D content =
        ([], [⟨(e.problem_mark_line).getD (-1), e.msg⟩])) ∧
    (∀ v, content ≠ "" → D.jsonLoads content = .ok v →
      ((∀ entries, v ≠ .dict entries) →
        _parse_json_file D content =
          ([], [⟨1, "The file should contain the object."⟩])) ∧
      (∀ entries, v = .dict entries →
        _parse_json_file D content = (entries, []))) ∧
    (∀ v, content ≠ "" → D.yamlSafeLoad content = .ok v →
      ((∀ entries, v ≠ .dict entries) →
        _parse_yaml_file D content =
          ([], [⟨1, "The file should contain the object."⟩])) ∧
      (∀ entries, v = .dict entries →
        _parse_yaml_file D content = (entries, []))) := by
  refine ⟨fun h => ⟨by simp [_parse_json_file, h], by simp [_parse_yaml_file, h]⟩,
    fun e h he => by simp [_parse_json_file, h, he],
    fun e h he => by simp [_parse_yaml_file, h, he],
    fun v h hv => ⟨fun hnd => ?_, fun entries hd => by
      simp [_parse_json_file, h, hv, hd]⟩,
    fun v h hv => ⟨fun hnd => ?_, fun entries hd => by
      simp [_parse_yaml_file, h, hv, hd]⟩⟩
  · cases v with
    | dict entries => exact absurd rfl (hnd entries)
    | str s => simp [_parse_json_file, h, hv]
    | int n => simp [_parse_json_file, h, hv]
    | bool b => simp [_parse_json_file, h, hv]
    | null => simp [_parse_json_file, h, hv]
    | list xs => simp [_parse_json_file, h, hv]
  · cases v with
    | dict entries => exact absurd rfl (hnd entries)
    | str s => simp [_parse_yaml_file, h, hv]
    | int n => simp [_parse_yaml_file, h, hv]
    | bool b => simp [_parse_yaml_file, h, hv]
    | null => simp [_parse_yaml_file, h, hv]
    | list xs => simp [_parse_yaml_file, h, hv]

/-- Witness for C7 at concrete inputs: empty content, a decoder error for
malformed JSON, a YAML error without a problem mark, and a decoded JSON
object returned verbatim. -/
theorem C7_json_yaml_parsers_witness :
    _parse_json_file D0 "" = ([], [⟨1, "The file is empty."⟩]) ∧
    _parse_json_file D0 "not json" =
      ([], [⟨1, "Expecting value: line 1 column 1 (char 0)"⟩]) ∧
    _parse_yaml_file D0 "a: [" =
      ([], [⟨-1, "could not determine a constructor"⟩]) ∧
    _parse_json_file D0 "\x7b\"A\":\"1\"\x7d" = ([("A", PyValue.str "1")], []) := by
  refine ⟨((C7_json_yaml_parsers D0 "").1 rfl).1, ?_, ?_, ?_⟩
  · exact (C7_json_yaml_parsers D0 "not json").2.1 ⟨1, "Expecting value: line 1 column 1 (char 0)"⟩
      (by decide) rfl
  · exact (C7_json_yaml_parsers D0 "a: [").2.2.1
      ⟨Option.none, "could not determine a constructor"⟩ (by decide) rfl
  · exact ((C7_json_yaml_parsers D0 "\x7b\"A\":\"1\"\x7d").2.2.2.1
      (.dict [("A", PyValue.str "1")]) (by decide) rfl).2
      [("A", PyValue.str "1")] rfl

/-- Claim C3: on a dispatched raw map the variable resolver checks only list
values: when some value is a list whose length is not one it fails naming
the file path and all offending keys in order; otherwise it returns the map
with singleton lists unwrapped to their element and every non-list value
passed through unchanged.  The last two conjuncts are the instances of the
claim: dotenv content A=1 and A=2 fails naming A, and JSON content mapping
A to the string 1 resolves to exactly that binding, not stringified. -/
theorem C3_load_variables (D : Deps) (fs : FileSystem) (file_path : String) :
    (∀ m, _parse_secret_file D fs file_path = .ok m →
      ((m.filter (fun p => isListLenNe1 p.2)).map Prod.fst ≠ [] →
        load_variables D fs file_path =
          .error (.multipleValuesForKeys file_path
            ((m.filter (fun p => isListLenNe1 p.2)).map Prod.fst))) ∧
      ((m.filter (fun p => isListLenNe1 p.2)).map Prod.fst = [] →
        load_variables D fs file_path =
          .ok (m.map (fun p => (p.1, unwrapValue p.2))))) ∧
    (∀ v, (∀ vs, v ≠ PyValue.list vs) → unwrapValue v = v) ∧
    (∀ x, unwrapValue (PyValue.list [x]) = x) ∧
    (∀ p, fs p = Option.some "A=1\nA=2" → fileExt p = "env" →
      load_variables D fs p = .error (.multipleValuesForKeys p ["A"])) ∧
    (∀ p, fs p = Option.some "\x7b\"A\":\"1\"\x7d" → fileExt p = "json" →
      D.jsonLoads "\x7b\"A\":\"1\"\x7d" = .ok (.dict [("A", .str "1")]) →
      load_variables D fs p = .ok [("A", PyValue.str "1")]) := by
  refine ⟨fun m hm => ⟨fun hbad => ?_, fun hok => ?_⟩, fun v hv => ?_,
    fun x => rfl, fun p hp hext => ?_, fun p hp hext hjson => ?_⟩
  · simp [load_variables, hm, hbad]
  · have hf : m.filter (fun p => isListLenNe1 p.2) = [] := by
      rcases List.eq_nil_or_concat (m.filter (fun p => isListLenNe1 p.2)) with h | ⟨l, a, h⟩
      · exact h
      · rw [h] at hok
        simp at hok
    simp [load_variables, hm, hf]
  · cases v with
    | list vs => exact absurd rfl (hv vs)
    | str s => rfl
    | int n => rfl
    | bool b => rfl
    | null => rfl
    | dict entries => rfl
  · have h2 : (_parse_env_file "A=1\nA=2").2 = [] := by decide
    have h1 : envAsPyDict (_parse_env_file "A=1\nA=2").1 =
        [("A", PyValue.list [PyValue.str "1", PyValue.str "2"])] := rfl
    have hdisp : _parse_secret_file D fs p =
        .ok [("A", PyValue.list [PyValue.str "1", PyValue.str "2"])] := by
      simp [_parse_secret_file, hp, hext, FILE_PARSERS, List.find?, h2, h1]
    simp [load_variables, hdisp, isListLenNe1]
  · have hdisp : _parse_secret_file D fs p = .ok [("A", PyValue.str "1")] := by
      simp [_parse_secret_file, hp, hext, FILE_PARSERS, List.find?, hjson,
        _parse_json_file]
    simp [load_variables, hdisp, isListLenNe1, unwrapValue]

/-- Witness for C3 at concrete inputs: the dotenv file vars.env with two
values for A fails naming A and the file, and the JSON file vars.json
resolves to the binding of A to the string 1. -/
theorem C3_load_variables_witness :
    load_variables D0 fs0 "vars.env" =
      .error (.multipleValuesForKeys "vars.env" ["A"]) ∧
    load_variables D0 fs0 "vars.json" = .ok [("A", PyValue.str "1")] := by
  refine ⟨?_, ?_⟩
  · exact (C3_load_variables D0 fs0 "vars.env").2.2.2.1 "vars.env" rfl (by decide)
  · exact (C3_load_variables D0 fs0 "vars.json").2.2.2.2 "vars.json" rfl
      (by decide) rfl

/-- Claim C4: the connection loop fails at once with the not-unique
condition when the value of the key under scrutiny is a list of length
above one; a list of length one is unwrapped and its sole element handed to
the connection builder; a non-list value is handed to the builder directly;
the built connection is stored under the original key (looking up that key
in the updated result yields it); a string value builds the URI connection
whose ID is the key; and on a dispatched map the resolver is exactly the
loop started from the empty result. -/
theorem C4_load_connections (D : Deps) (file_path : String) :
    (∀ key vs rest acc, vs.length > 1 →
      connLoop D file_path ((key, PyValue.list vs) :: rest) acc =
        .error (.connectionNotUnique key file_path)) ∧
    (∀ key v rest acc,
      connLoop D file_path ((key, PyValue.list [v]) :: rest) acc =
        match _create_connection D key v with
        | .error e => .error e
        | .ok c => connLoop D file_path rest (pydictSet acc key c)) ∧
    (∀ key v rest acc, (∀ vs, v ≠ PyValue.list vs) →
      connLoop D file_path ((key, v) :: rest) acc =
        match _create_connection D key v with
        | .error e => .error e
        | .ok c => connLoop D file_path rest (pydictSet acc key c)) ∧
    (∀ (acc : List (String × Connection)) (key : String) (c : Connection),
      pydictGet (pydictSet acc key c) key = Option.some c) ∧
    (∀ key s, _create_connection D key (PyValue.str s) =
      .ok (.fromUri key s)) ∧
    (∀ fs m, _parse_secret_file D fs file_path = .ok m →
      load_connections_dict D fs file_path = connLoop D file_path m []) := by
  refine ⟨fun key vs rest acc h => ?_, fun key v rest acc => ?_,
    fun key v rest acc hv => ?_,
    fun acc key c => pydictGet_set_self acc key c,
    fun key s => rfl, fun fs m hm => by simp [load_connections_dict, hm]⟩
  · simp [connLoop, h]
  · have hlen : ¬ ([v].length > 1) := by simp
    simp only [connLoop, hlen, if_false, connAssignLoop]
    cases _create_connection D key v with
    | error e => rfl
    | ok c => rfl
  · cases v with
    | list vs => exact absurd rfl (hv vs)
    | str s => simp only [connLoop]
    | int n => simp only [connLoop]
    | bool b => simp only [connLoop]
    | null => simp only [connLoop]
    | dict entries => simp only [connLoop]

/-- Witness for C4 at concrete inputs: a two-value key fails as not unique,
a singleton list is unwrapped and built, a bare string value builds a URI
connection stored under its key, and the dispatched conns.json map drives
the loop from the empty result. -/
theorem C4_load_connections_witness :
    connLoop D0 "f.env" [("A", PyValue.list [PyValue.str "u1", PyValue.str "u2"])] [] =
      .error (.connectionNotUnique "A" "f.env") ∧
    connLoop D0 "f.env" [("A", PyValue.list [PyValue.str "u1"])] [] =
      .ok [("A", Connection.fromUri "A" "u1")] ∧
    connLoop D0 "f.json" [("B", PyValue.str "u3")] [] =
      .ok [("B", Connection.fromUri "B" "u3")] ∧
    pydictGet [("B", Connection.fromUri "B" "u3")] "B" =
      Option.some (Connection.fromUri "B" "u3") ∧
    load_connections_dict D0 fs0 "conns.json" = connLoop D0 "conns.json" [("a", PyValue.list [])] [] := by
  refine ⟨(C4_load_connections D0 "f.env").1 "A"
      [PyValue.str "u1", PyValue.str "u2"] [] [] (by decide),
    ?_, ?_, ?_, ?_⟩
  · have h := (C4_load_connections D0 "f.env").2.1 "A" (PyValue.str "u1") [] []
    rw [h]
    rfl
  · have h := (C4_load_connections D0 "f.json").2.2.1 "B" (PyValue.str "u3") [] []
      (by intro vs hv; cases hv)
    rw [h]
    rfl
  · exact (C4_load_connections D0 "f.json").2.2.2.1
      [] "B" (Connection.fromUri "B" "u3")
  · exact (C4_load_connections D0 "conns.json").2.2.2.2.2 fs0
      [("a", PyValue.list [])] rfl

lemma connAssignLoop_get_none (D : Deps) (k target : String) (hk : k ≠ target)
    (vs : List PyValue) (acc : List (String × Connection))
    (r : List (String × Connection))
    (hacc : pydictGet acc target = Option.none)
    (h : connAssignLoop D k vs acc = .ok r) :
    pydictGet r target = Option.none := by
  induction vs generalizing acc with
  | nil =>
    simp only [connAssignLoop] at h
    cases h
    exact hacc
  | cons v rest ih =>
    simp only [connAssignLoop] at h
    cases hc : _create_connection D k v with
    | error e => rw [hc] at h; cases h
    | ok c =>
      rw [hc] at h
      exact ih (pydictSet acc k c)
        (by rw [pydictGet_set_ne acc k target c (Ne.symm hk)]; exact hacc) h

lemma connLoop_get_none (D : Deps) (file_path : String) (target : String)
    (l : PyDict) :
    ∀ acc : List (String × Connection), pydictGet acc target = Option.none →
    (∀ v, (target, v) ∈ l → v = PyValue.list []) →
    ∀ r, connLoop D file_path l acc = .ok r →
    pydictGet r target = Option.none := by
  induction l with
  | nil =>
    intro acc hacc _ r h
    simp only [connLoop] at h
    cases h
    exact hacc
  | cons p rest ih =>
    intro acc hacc hmem r h
    obtain ⟨k, v⟩ := p
    by_cases hk : k = target
    · have hv : v = PyValue.list [] := hmem v (by rw [hk]; exact List.Mem.head _)
      rw [hk, hv] at h
      simp only [connLoop, List.length_nil, connAssignLoop] at h
      have h1 : ¬ ((0 : Nat) > 1) := by decide
      rw [if_neg h1] at h
      exact ih acc hacc (fun v hv => hmem v (List.mem_cons_of_mem _ hv)) r h
    · cases v with
      | list vs =>
        simp only [connLoop] at h
        by_cases hlen : vs.length > 1
        · rw [if_pos hlen] at h; cases h
        · rw [if_neg hlen] at h
          cases ha : connAssignLoop D k vs acc with
          | error e => rw [ha] at h; cases h
          | ok acc2 =>
            rw [ha] at h
            exact ih acc2 (connAssignLoop_get_none D k target hk vs acc acc2 hacc ha)
              (fun v hv => hmem v (List.mem_cons_of_mem _ hv)) r h
      | str s =>
        simp only [connLoop] at h
        cases hc : _create_connection D k (PyValue.str s) with
        | error e => rw [hc] at h; cases h
        | ok c =>
          rw [hc] at h
          exact ih (pydictSet acc k c)
            (by rw [pydictGet_set_ne acc k target c (Ne.symm hk)]; exact hacc)
            (fun v hv => hmem v (List.mem_cons_of_mem _ hv)) r h
      | int n =>
        simp only [connLoop] at h
        cases hc : _create_connection D k (PyValue.int n) with
        | error e => rw [hc] at h; cases h
        | ok c =>
          rw [hc] at h
          exact ih (pydictSet acc k c)
            (by rw [pydictGet_set_ne acc k target c (Ne.symm hk)]; exact hacc)
            (fun v hv => hmem v (List.mem_cons_of_mem _ hv)) r h
      | bool bb =>
        simp only [connLoop] at h
        cases hc : _create_connection D k (PyValue.bool bb) with
        | error e => rw [hc] at h; cases h
        | ok c =>
          rw [hc] at h
          exact ih (pydictSet acc k c)
            (by rw [pydictGet_set_ne acc k target c (Ne.symm hk)]; exact hacc)
            (fun v hv => hmem v (List.mem_cons_of_mem _ hv)) r h
      | null =>
        simp only [connLoop] at h
        cases hc : _create_connection D k PyValue.null with
        | error e => rw [hc] at h; cases h
        | ok c =>
          rw [hc] at h
          exact ih (pydictSet acc k c)
            (by rw [pydictGet_set_ne acc k target c (Ne.symm hk)]; exact hacc)
            (fun v hv => hmem v (List.mem_cons_of_mem _ hv)) r h
      | dict entries =>
        simp only [connLoop] at h
        cases hc : _create_connection D k (PyValue.dict entries) with
        | error e => rw [hc] at h; cases h
        | ok c =>
          rw [hc] at h
          exact ih (pydictSet acc k c)
            (by rw [pydictGet_set_ne acc k target c (Ne.symm hk)]; exact hacc)
            (fun v hv => hmem v (List.mem_cons_of_mem _ hv)) r h

/-- Claim C10: a key whose raw value is the empty list is skipped by the
connection loop without error and without building a connection, and when
every binding of that key in the dispatched map is the empty list the key is
absent from the successful result; the variable resolver instead fails on
the very same map, naming the key among the offending ones; on the concrete
JSON content mapping a to the empty list, the connection resolver returns
the empty mapping and the variable resolver fails naming a. -/
theorem C10_empty_list_value (D : Deps) (file_path : String) :
    (∀ key rest acc, connLoop D file_path ((key, PyValue.list []) :: rest) acc =
        connLoop D file_path rest acc) ∧
    (∀ fs m key, _parse_secret_file D fs file_path = .ok m →
      (key, PyValue.list []) ∈ m →
      load_variables D fs file_path =
        .error (.multipleValuesForKeys file_path
          ((m.filter (fun p => isListLenNe1 p.2)).map Prod.fst)) ∧
      key ∈ (m.filter (fun p => isListLenNe1 p.2)).map Prod.fst) ∧
    (∀ fs m key r, _parse_secret_file D fs file_path = .ok m →
      (∀ v, (key, v) ∈ m → v = PyValue.list []) → (key, PyValue.list []) ∈ m →
      load_connections_dict D fs file_path = .ok r →
      pydictGet r key = Option.none) ∧
    (∀ fs, fs file_path = Option.some "\x7b\"a\": []\x7d" →
      fileExt file_path = "json" →
      D.jsonLoads "\x7b\"a\": []\x7d" = .ok (.dict [("a", .list [])]) →
      load_connections_dict D fs file_path = .ok [] ∧
      load_variables D fs file_path =
        .error (.multipleValuesForKeys file_path ["a"])) := by
  have hmemf : ∀ (m : PyDict) (key : String), (key, PyValue.list []) ∈ m →
      key ∈ (m.filter (fun p => isListLenNe1 p.2)).map Prod.fst := by
    intro m key hmem
    exact List.mem_map.mpr ⟨(key, PyValue.list []),
      List.mem_filter.mpr ⟨hmem, rfl⟩, rfl⟩
  refine ⟨fun key rest acc => ?_, fun fs m key hm hmem => ?_,
    fun fs m key r hm hall hmem hr => ?_, fun fs hp hext hjson => ?_⟩
  · simp [connLoop, connAssignLoop]
  · have hk := hmemf m key hmem
    have hne : (m.filter (fun p => isListLenNe1 p.2)).map Prod.fst ≠ [] :=
      List.ne_nil_of_mem hk
    exact ⟨by simp [load_variables, hm, hne], hk⟩
  · have hload : connLoop D file_path m [] = .ok r := by
      simpa [load_connections_dict, hm] using hr
    exact connLoop_get_none D file_path key m [] rfl hall r hload
  · have hdisp : _parse_secret_file D fs file_path =
        .ok [("a", PyValue.list [])] := by
      simp [_parse_secret_file, hp, hext, FILE_PARSERS, List.find?, hjson,
        _parse_json_file]
    constructor
    · simp [load_connections_dict, hdisp, connLoop, connAssignLoop]
    · simp [load_variables, hdisp, isListLenNe1]

/-- Witness for C10 at concrete inputs: the file conns.json maps a to the
empty list; the connection resolver succeeds with the empty result (so a is
absent) while the variable resolver fails naming a. -/
theorem C10_empty_list_value_witness :
    load_connections_dict D0 fs0 "conns.json" = .ok [] ∧
    load_variables D0 fs0 "conns.json" =
      .error (.multipleValuesForKeys "conns.json" ["a"]) ∧
    pydictGet ([] : List (String × Connection)) "a" = Option.none := by
  have h := (C10_empty_list_value D0 "conns.json").2.2.2 fs0 rfl (by decide) rfl
  refine ⟨h.1, h.2, ?_⟩
  exact (C10_empty_list_value D0 "conns.json").2.2.1 fs0
    [("a", PyValue.list [])] "a" [] rfl
    (by
      intro v hv
      simp at hv
      exact hv)
    (List.Mem.head _) h.1


lemma contains_iff_mem (l : List String) (k : String) :
    l.contains k = true ↔ k ∈ l := by
  simp [List.contains, List.elem_iff]

lemma allowed_all_eq_true (d : PyDict) (names : List String)
    (h : ∀ k ∈ dictKeys d, k ∈ names) :
    (dictKeys d).all (fun k => names.contains k) = true :=
  List.all_eq_true.mpr (fun k hk => (contains_iff_mem names k).mpr (h k hk))

lemma pydictGet_normalized_conn_id (d : PyDict) (val : PyValue) :
    pydictGet (pydictDel (pydictSet d "extra" val) "extra_dejson") "conn_id" =
      pydictGet d "conn_id" := by
  rw [pydictGet_del_ne _ "extra_dejson" "conn_id" (by decide),
    pydictGet_set_ne d "extra" "conn_id" val (by decide)]

lemma create_connection_illegal_keys (D : Deps) (conn_id : String) (d : PyDict) (k : String)
    (hk : k ∈ dictKeys d)
    (hout : k ∉ D.connection_parameter_names ++ ["extra_dejson"]) :
    _create_connection D conn_id (.dict d) =
      .error (.illegalKeys
        ((dictKeys d).filter
          (fun k => ¬ (D.connection_parameter_names ++ ["extra_dejson"]).contains k))
        (D.connection_parameter_names ++ ["extra_dejson"])) := by
  have hbad : ((dictKeys d).all
      (fun k => (D.connection_parameter_names ++ ["extra_dejson"]).contains k)) = false := by
    rw [Bool.eq_false_iff]
    intro hall
    exact hout ((contains_iff_mem _ k).mp (List.all_eq_true.mp hall k hk))
  simp only [_create_connection]
  rw [if_pos (by rw [hbad]; simp)]

lemma create_connection_extra_exclusive (D : Deps) (conn_id : String) (d : PyDict)
    (hall : ∀ k ∈ dictKeys d, k ∈ D.connection_parameter_names ++ ["extra_dejson"])
    (hx : (pydictGet d "extra").isSome) (hxd : (pydictGet d "extra_dejson").isSome) :
    _create_connection D conn_id (.dict d) = .error .mutuallyExclusiveExtra := by
  have hgood := allowed_all_eq_true d _ hall
  simp only [_create_connection]
  rw [if_neg (by rw [hgood]; simp), if_pos ⟨hx, hxd⟩]

lemma create_connection_dejson_normalized (D : Deps) (conn_id : String) (d : PyDict) (ed : PyValue)
    (hall : ∀ k ∈ dictKeys d, k ∈ D.connection_parameter_names ++ ["extra_dejson"])
    (hx : pydictGet d "extra" = Option.none)
    (hxd : pydictGet d "extra_dejson" = Option.some ed)
    (hcid : pydictGet d "conn_id" = Option.none ∨
      pydictGet d "conn_id" = Option.some (.str conn_id)) :
    _create_connection D conn_id (.dict d) =
      .ok (.fromKwargs (pydictSet
        (pydictDel (pydictSet d "extra" (.str (D.jsonDumps ed))) "extra_dejson")
        "conn_id" (.str conn_id))) := by
  have hgood := allowed_all_eq_true d _ hall
  simp only [_create_connection]
  rw [if_neg (by rw [hgood]; simp), if_neg (by rw [hx]; simp)]
  simp only [hxd]
  rcases hcid with hnone | hsome
  · have hcont : (dictKeys d).contains "conn_id" = false := by
      rw [Bool.eq_false_iff]
      intro hc
      have hs := (pydictGet_isSome_iff d "conn_id").mpr ((contains_iff_mem _ _).mp hc)
      rw [hnone] at hs
      simp at hs
    rw [if_neg (by rw [hcont]; simp)]
  · rw [if_neg ?hcond]
    case hcond =>
      rw [pydictGet_normalized_conn_id d _, hsome]
      intro hcontr
      exact hcontr.2 (by simp [pyEqStr, Option.getD_some])

lemma create_connection_id_mismatch (D : Deps) (conn_id : String) (d : PyDict) (cv : PyValue)
    (hall : ∀ k ∈ dictKeys d, k ∈ D.connection_parameter_names ++ ["extra_dejson"])
    (hnb : ¬ ((pydictGet d "extra").isSome ∧ (pydictGet d "extra_dejson").isSome))
    (hcv : pydictGet d "conn_id" = Option.some cv)
    (hne : pyEqStr cv conn_id = false) :
    _create_connection D conn_id (.dict d) =
      .error (.connIdMismatch cv conn_id) := by
  have hgood := allowed_all_eq_true d _ hall
  have hcont : (dictKeys d).contains "conn_id" = true :=
    (contains_iff_mem _ _).mpr
      ((pydictGet_isSome_iff d "conn_id").mp (by rw [hcv]; rfl))
  simp only [_create_connection]
  rw [if_neg (by rw [hgood]; simp), if_neg hnb]
  cases hxd : pydictGet d "extra_dejson" with
  | none =>
    simp only [hxd]
    rw [if_pos ⟨by rw [hcont], by rw [hcv]; simp [hne]⟩, hcv]
    rfl
  | some ed =>
    simp only [hxd]
    rw [if_pos ⟨by rw [hcont], by rw [pydictGet_normalized_conn_id d _, hcv]; simp [hne]⟩,
      pydictGet_normalized_conn_id d _, hcv]
    rfl

lemma create_connection_plain_success (D : Deps) (conn_id : String) (d : PyDict)
    (hall : ∀ k ∈ dictKeys d, k ∈ D.connection_parameter_names ++ ["extra_dejson"])
    (hxd : pydictGet d "extra_dejson" = Option.none)
    (hcid : pydictGet d "conn_id" = Option.none ∨
      pydictGet d "conn_id" = Option.some (.str conn_id)) :
    _create_connection D conn_id (.dict d) =
      .ok (.fromKwargs (pydictSet d "conn_id" (.str conn_id))) := by
  have hgood := allowed_all_eq_true d _ hall
  simp only [_create_connection]
  rw [if_neg (by rw [hgood]; simp), if_neg (by rw [hxd]; simp)]
  simp only [hxd]
  rcases hcid with hnone | hsome
  · have hcont : (dictKeys d).contains "conn_id" = false := by
      rw [Bool.eq_false_iff]
      intro hc
      have hs := (pydictGet_isSome_iff d "conn_id").mpr ((contains_iff_mem _ _).mp hc)
      rw [hnone] at hs
      simp at hs
    rw [if_neg (by rw [hcont]; simp)]
  · rw [if_neg ?hcond5]
    case hcond5 =>
      rw [hsome]
      intro hcontr
      exact hcontr.2 (by simp [pyEqStr, Option.getD_some])

/-- Claim C2: on a dict value the connection builder first rejects keys
outside the allowed set (the external constructor parameter names together
with extra_dejson), listing the offending keys; then rejects the
simultaneous presence of extra and extra_dejson; then, when extra_dejson
alone is present, serializes it to a JSON string stored under extra and
removes extra_dejson; then rejects a declared conn_id differing from the
supplied one, naming both values; and otherwise overrides conn_id with the
supplied value and builds the connection from the normalized fields.  On a
value that is neither a string nor a dict it fails naming the actual
type. -/
theorem C2_create_connection (D : Deps) (conn_id : String) :
    (∀ d k, k ∈ dictKeys d →
      k ∉ D.connection_parameter_names ++ ["extra_dejson"] →
      _create_connection D conn_id (.dict d) =
        .error (.illegalKeys
          ((dictKeys d).filter
            (fun k => ¬ (D.connection_parameter_names ++ ["extra_dejson"]).contains k))
          (D.connection_parameter_names ++ ["extra_dejson"]))) ∧
    (∀ d, (∀ k ∈ dictKeys d, k ∈ D.connection_parameter_names ++ ["extra_dejson"]) →
      (pydictGet d "extra").isSome → (pydictGet d "extra_dejson").isSome →
      _create_connection D conn_id (.dict d) = .error .mutuallyExclusiveExtra) ∧
    (∀ d ed, (∀ k ∈ dictKeys d, k ∈ D.connection_parameter_names ++ ["extra_dejson"]) →
      pydictGet d "extra" = Option.none →
      pydictGet d "extra_dejson" = Option.some ed →
      (pydictGet d "conn_id" = Option.none ∨
        pydictGet d "conn_id" = Option.some (.str conn_id)) →
      _create_connection D conn_id (.dict d) =
        .ok (.fromKwargs (pydictSet
          (pydictDel (pydictSet d "extra" (.str (D.jsonDumps ed))) "extra_dejson")
          "conn_id" (.str conn_id)))) ∧
    (∀ d cv, (∀ k ∈ dictKeys d, k ∈ D.connection_parameter_names ++ ["extra_dejson"]) →
      ¬ ((pydictGet d "extra").isSome ∧ (pydictGet d "extra_dejson").isSome) →
      pydictGet d "conn_id" = Option.some cv → pyEqStr cv conn_id = false →
      _create_connection D conn_id (.dict d) =
        .error (.connIdMismatch cv conn_id)) ∧
    (∀ d, (∀ k ∈ dictKeys d, k ∈ D.connection_parameter_names ++ ["extra_dejson"]) →
      pydictGet d "extra_dejson" = Option.none →
      (pydictGet d "conn_id" = Option.none ∨
        pydictGet d "conn_id" = Option.some (.str conn_id)) →
      _create_connection D conn_id (.dict d) =
        .ok (.fromKwargs (pydictSet d "conn_id" (.str conn_id)))) ∧
    (∀ n, _create_connection D conn_id (.int n) =
      .error (.unexpectedValueType "int")) ∧
    (∀ b, _create_connection D conn_id (.bool b) =
      .error (.unexpectedValueType "bool")) ∧
    (_create_connection D conn_id .null =
      .error (.unexpectedValueType "NoneType")) ∧
    (∀ xs, _create_connection D conn_id (.list xs) =
      .error (.unexpectedValueType "list")) :=
  ⟨fun d k hk hout => create_connection_illegal_keys D conn_id d k hk hout,
   fun d hall hx hxd => create_connection_extra_exclusive D conn_id d hall hx hxd,
   fun d ed hall hx hxd hcid =>
     create_connection_dejson_normalized D conn_id d ed hall hx hxd hcid,
   fun d cv hall hnb hcv hne =>
     create_connection_id_mismatch D conn_id d cv hall hnb hcv hne,
   fun d hall hxd hcid => create_connection_plain_success D conn_id d hall hxd hcid,
   fun _ => rfl, fun _ => rfl, rfl, fun _ => rfl⟩

/-- Witness for C2 at concrete inputs: an illegal key bad_key is rejected
naming it; extra together with extra_dejson is rejected; extra_dejson alone
is serialized under extra and removed; a declared conn_id x under the
supplied ID c1 is rejected naming both; a valid object gains conn_id c1;
and a boolean value is rejected naming bool. -/
theorem C2_create_connection_witness :
    _create_connection D0 "c1" (.dict [("conn_type", .str "http"), ("bad_key", .int 3)]) =
      .error (.illegalKeys ["bad_key"]
        (D0.connection_parameter_names ++ ["extra_dejson"])) ∧
    _create_connection D0 "c1" (.dict [("extra", .str "e"), ("extra_dejson", .dict [])]) =
      .error .mutuallyExclusiveExtra ∧
    _create_connection D0 "c1" (.dict [("extra_dejson", .dict []), ("host", .str "h")]) =
      .ok (.fromKwargs [("host", .str "h"), ("extra", .str "null"),
        ("conn_id", .str "c1")]) ∧
    _create_connection D0 "c1" (.dict [("conn_id", .str "x")]) =
      .error (.connIdMismatch (.str "x") "c1") ∧
    _create_connection D0 "c1" (.dict [("host", .str "h")]) =
      .ok (.fromKwargs [("host", .str "h"), ("conn_id", .str "c1")]) ∧
    _create_connection D0 "c1" (.bool true) =
      .error (.unexpectedValueType "bool") := by
  refine ⟨?_, ?_, ?_, ?_, ?_, (C2_create_connection D0 "c1").2.2.2.2.2.2.1 true⟩
  · have h := (C2_create_connection D0 "c1").1
      [("conn_type", .str "http"), ("bad_key", .int 3)] "bad_key"
      (by simp [dictKeys]) (by decide)
    rw [h]
    rfl
  · exact (C2_create_connection D0 "c1").2.1
      [("extra", .str "e"), ("extra_dejson", .dict [])]
      (by intro k hk; simp [dictKeys] at hk; rcases hk with h | h <;> simp [h, D0])
      rfl rfl
  · have h := (C2_create_connection D0 "c1").2.2.1
      [("extra_dejson", .dict []), ("host", .str "h")] (.dict [])
      (by intro k hk; simp [dictKeys] at hk; rcases hk with h | h <;> simp [h, D0])
      rfl rfl (Or.inl rfl)
    rw [h]
    rfl
  · exact (C2_create_connection D0 "c1").2.2.2.1
      [("conn_id", .str "x")] (.str "x")
      (by intro k hk; simp [dictKeys] at hk; simp [hk, D0])
      (by rw [show pydictGet [("conn_id", PyValue.str "x")] "extra" = Option.none from rfl]; simp)
      rfl rfl
  · exact (C2_create_connection D0 "c1").2.2.2.2.1
      [("host", .str "h")]
      (by intro k hk; simp [dictKeys] at hk; simp [hk, D0])
      rfl (Or.inl rfl)

/-- Claim C8: with an unconfigured (absent or empty) variables respectively
connections path, the lookups return not-found for every key and for every
filesystem, so the filesystem is never consulted; with a configured path and
a successful resolution in which the key is absent, the lookups return
not-found rather than an error; any failing resolution of a configured file
propagates its error unchanged through the lookups; and a present conn_id
returns its resolved connection. -/
theorem C8_backend_facade (D : Deps) (b : LocalFilesystemBackend) :
    ((b.variables_file = Option.none ∨ b.variables_file = Option.some "") →
      ∀ fs key, get_variable D fs b key = .ok Option.none) ∧
    ((b.connections_file = Option.none ∨ b.connections_file = Option.some "") →
      ∀ fs conn_id, get_connection D fs b conn_id = .ok Option.none) ∧
    (∀ fs p m key, b.variables_file = Option.some p → p ≠ "" →
      load_variables D fs p = .ok m → pydictGet m key = Option.none →
      get_variable D fs b key = .ok Option.none) ∧
    (∀ fs p m conn_id, b.connections_file = Option.some p → p ≠ "" →
      load_connections_dict D fs p = .ok m → pydictGet m conn_id = Option.none →
      get_connection D fs b conn_id = .ok Option.none) ∧
    (∀ fs p e key, b.variables_file = Option.some p → p ≠ "" →
      load_variables D fs p = .error e → get_variable D fs b key = .error e) ∧
    (∀ fs p e conn_id, b.connections_file = Option.some p → p ≠ "" →
      load_connections_dict D fs p = .error e →
      get_connection D fs b conn_id = .error e) ∧
    (∀ fs p m conn_id c, b.connections_file = Option.some p → p ≠ "" →
      load_connections_dict D fs p = .ok m →
      pydictGet m conn_id = Option.some c →
      get_connection D fs b conn_id = .ok (Option.some c)) ∧
    (∀ fs p m key v, b.variables_file = Option.some p → p ≠ "" →
      load_variables D fs p = .ok m → pydictGet m key = Option.some v →
      get_variable D fs b key = .ok (Option.some v)) := by
  refine ⟨fun h fs key => ?_, fun h fs conn_id => ?_,
    fun fs p m key hb hp hload hget => ?_,
    fun fs p m conn_id hb hp hload hget => ?_,
    fun fs p e key hb hp hload => ?_,
    fun fs p e conn_id hb hp hload => ?_,
    fun fs p m conn_id c hb hp hload hget => ?_,
    fun fs p m key v hb hp hload hget => ?_⟩
  · rcases h with h | h <;> simp [get_variable, _local_variables, h, pydictGet]
  · rcases h with h | h <;> simp [get_connection, _local_connections, h, pydictGet]
  · simp [get_variable, _local_variables, hb, hp, hload, hget]
  · simp [get_connection, _local_connections, hb, hp, hload, hget]
  · simp [get_variable, _local_variables, hb, hp, hload]
  · simp [get_connection, _local_connections, hb, hp, hload]
  · simp [get_connection, _local_connections, hb, hp, hload, hget]
  · simp [get_variable, _local_variables, hb, hp, hload, hget]

/-- Witness for C8 at concrete inputs: an unconfigured backend finds
nothing on any filesystem; a configured backend returns not-found for an
absent key, propagates the failure of a malformed configured file, and
returns the resolved value for a present key. -/
theorem C8_backend_facade_witness :
    get_variable D0 fs0 ⟨Option.none, Option.none⟩ "A" = .ok Option.none ∧
    get_connection D0 fs0 ⟨Option.none, Option.some ""⟩ "A" = .ok Option.none ∧
    get_variable D0 fs0 ⟨Option.some "vars.json", Option.none⟩ "B" =
      .ok Option.none ∧
    get_variable D0 fs0 ⟨Option.some "vars.env", Option.none⟩ "A" =
      .error (.multipleValuesForKeys "vars.env" ["A"]) ∧
    get_variable D0 fs0 ⟨Option.some "vars.json", Option.none⟩ "A" =
      .ok (Option.some (PyValue.str "1")) := by
  refine ⟨(C8_backend_facade D0 _).1 (Or.inl rfl) fs0 "A",
    (C8_backend_facade D0 _).2.1 (Or.inr rfl) fs0 "A", ?_, ?_, ?_⟩
  · exact (C8_backend_facade D0 _).2.2.1 fs0 "vars.json" [("A", PyValue.str "1")]
      "B" rfl (by decide) rfl rfl
  · exact (C8_backend_facade D0 _).2.2.2.2.1 fs0 "vars.env"
      (.multipleValuesForKeys "vars.env" ["A"]) "A" rfl (by decide) rfl
  · exact (C8_backend_facade D0 _).2.2.2.2.2.2.2 fs0 "vars.json"
      [("A", PyValue.str "1")] "A" (PyValue.str "1") rfl (by decide) rfl rfl
